import Mathlib

/-!
Verification of the todo-app-react client against its specification.

Shallow embedding of the client-side code:
- `src/api.js` (transport module): `listTodos`, `createTodo`, `updateTodo`,
  `deleteTodo`, each checking the response status and either decoding the
  body or raising a fixed error message;
- `src/App.jsx` (root component): `handleAdd`, `handleToggle`, `handleEdit`,
  `handleDelete`, each awaiting a transport call and then updating the owned
  collection (append / map-replace / filter);
- `src/TodoForm.jsx` (input component): `submit`, guarding on the trimmed
  draft and clearing the field only after the callback resolves;
- `src/TodoItem.jsx` (item component): `save`, invoking the edit callback
  only when the draft is non-empty and differs from the current title.

The network is modelled by passing each transport function the response it
receives: a status flag (`ok`, the success of the HTTP status check) and the
decoded JSON body. A rejected promise is an `Except.error`; a handler whose
awaited call rejects never reaches its state setter, so the collection the
root holds afterwards is the prior one (`stateAfter`).
-/

/-- A todo record, JSON shape `{id, title, completed}` with a server-assigned
opaque identifier (modelled as `Nat`). -/
structure Todo where
  id : Nat
  title : String
  completed : Bool
deriving DecidableEq, Repr

/-- A transport response as the api module observes it: the success flag of
the HTTP status check (`res.ok`) and the decoded JSON body. -/
structure Resp (α : Type) where
  ok : Bool
  body : α
deriving DecidableEq, Repr

/-- The PATCH request body of `updateTodo`: a subset of `{title, completed}`
(the callers in `App.jsx` always send exactly one field). -/
inductive Patch where
  | completedField (b : Bool)
  | titleField (s : String)
deriving DecidableEq, Repr

/-- Transport `listTodos` (src/api.js): GET `/todos`; on non-success status
throws "Failed to load todos", otherwise returns the decoded array. -/
def listTodos (res : Resp (List Todo)) : Except String (List Todo) :=
  if res.ok then .ok res.body else .error "Failed to load todos"

/-- Transport `createTodo` (src/api.js): POST `/todos` with body
`{title, completed:false}`; on non-success status throws
"Failed to create todo", otherwise returns the created record. -/
def createTodo (title : String) (res : Resp Todo) : Except String Todo :=
  if res.ok then .ok res.body else .error "Failed to create todo"

/-- Transport `updateTodo` (src/api.js): PATCH `/todos/:id` with the patch
body; on non-success status throws "Failed to update todo", otherwise
returns the updated record. -/
def updateTodo (id : Nat) (patch : Patch) (res : Resp Todo) :
    Except String Todo :=
  if res.ok then .ok res.body else .error "Failed to update todo"

/-- Transport `deleteTodo` (src/api.js): DELETE `/todos/:id`; on non-success
status throws "Failed to delete todo", otherwise returns `true`. -/
def deleteTodo (id : Nat) (res : Resp Unit) : Except String Bool :=
  if res.ok then .ok true else .error "Failed to delete todo"

/-- Root `handleAdd` (src/App.jsx): awaits `createTodo(title)` and appends
the created record to the collection; a rejection propagates. -/
def handleAdd (title : String) (res : Resp Todo) (todos : List Todo) :
    Except String (List Todo) :=
  match createTodo title res with
  | .ok created => .ok (todos ++ [created])
  | .error e => .error e

/-- Root `handleToggle` (src/App.jsx): awaits `updateTodo(id, {completed})`
and maps the collection, replacing every element with matching `id` by the
server-returned record; a rejection propagates. -/
def handleToggle (id : Nat) (completed : Bool) (res : Resp Todo)
    (todos : List Todo) : Except String (List Todo) :=
  match updateTodo id (.completedField completed) res with
  | .ok updated => .ok (todos.map fun t => if t.id == id then updated else t)
  | .error e => .error e

/-- Root `handleEdit` (src/App.jsx): awaits `updateTodo(id, {title})` and
maps the collection, replacing every element with matching `id` by the
server-returned record; a rejection propagates. -/
def handleEdit (id : Nat) (title : String) (res : Resp Todo)
    (todos : List Todo) : Except String (List Todo) :=
  match updateTodo id (.titleField title) res with
  | .ok updated => .ok (todos.map fun t => if t.id == id then updated else t)
  | .error e => .error e

/-- Root `handleDelete` (src/App.jsx): awaits `deleteTodo(id)` and filters
the collection, keeping the elements whose `id` differs (`t.id !== id`); a
rejection propagates. -/
def handleDelete (id : Nat) (res : Resp Unit) (todos : List Todo) :
    Except String (List Todo) :=
  match deleteTodo id res with
  | .ok _ => .ok (todos.filter fun t => !(t.id == id))
  | .error e => .error e

/-- The collection the root component holds once a handler settles: the new
collection when the handler resolved, the prior collection when the awaited
call rejected (the `setTodos` line is never reached). -/
def stateAfter (r : Except String (List Todo)) (prev : List Todo) :
    List Todo :=
  match r with
  | .ok next => next
  | .error _ => prev

/-- Embedding of the JavaScript string method `trim()`: drops leading and
trailing whitespace characters. Defined structurally over the character
list so that it evaluates on concrete inputs. -/
def jsTrim (s : String) : String :=
  ⟨((s.data.dropWhile Char.isWhitespace).reverse.dropWhile
      Char.isWhitespace).reverse⟩

/-- The outcome of one form submission (src/TodoForm.jsx): the argument the
`onAdd` callback was invoked with (`none` when the guard rejected the
draft), and the value of the text field after the submission settles. -/
structure SubmitResult where
  callArg : Option String
  field : String
deriving DecidableEq, Repr

/-- Form `submit` (src/TodoForm.jsx), parameterised by whether the awaited
`onAdd` call resolves (`addOk`): a blank trimmed draft returns without
calling; otherwise `onAdd(title.trim())` is awaited and the field is cleared
only when it resolves (a rejection skips `setTitle("")`). -/
def submit (title : String) (addOk : Bool) : SubmitResult :=
  if jsTrim title = "" then ⟨none, title⟩
  else if addOk then ⟨some (jsTrim title), ""⟩
  else ⟨some (jsTrim title), title⟩

/-- Form `submit` composed with the root's `handleAdd` as `App.jsx` wires it:
the guard, the `onAdd` callback argument, the field after settling, and the
collection after settling. -/
def formSubmit (title : String) (res : Resp Todo) (todos : List Todo) :
    SubmitResult × List Todo :=
  if jsTrim title = "" then (⟨none, title⟩, todos)
  else
    match handleAdd (jsTrim title) res todos with
    | .ok next => (⟨some (jsTrim title), ""⟩, next)
    | .error _ => (⟨some (jsTrim title), title⟩, todos)

/-- Item `save` (src/TodoItem.jsx): invokes the edit callback with
`(todo.id, draft.trim())` only when the trimmed draft is non-empty
(truthy) and the raw draft differs from the current title; returns the
callback invocation (`none` = no network call). Edit mode exits in every
case. -/
def save (todo : Todo) (draft : String) : Option (Nat × String) :=
  if jsTrim draft ≠ "" ∧ draft ≠ todo.title then some (todo.id, jsTrim draft)
  else none

/-- Helper: the replace-by-map of the root's update handlers leaves a
collection untouched when no element's identifier matches. -/
theorem map_replace_eq_self (id : Nat) (u : Todo) (todos : List Todo)
    (habs : ∀ t ∈ todos, t.id ≠ id) :
    (todos.map fun t => if t.id == id then u else t) = todos := by
  induction todos with
  | nil => rfl
  | cons a l ih =>
    have ha : (a.id == id) = false := by
      simpa using habs a (List.mem_cons_self a l)
    rw [List.map_cons, ih fun t ht => habs t (List.mem_cons_of_mem a ht),
      if_neg (by simp [ha])]

/-- Helper: dropping the elements satisfying `p` shortens a list by exactly
the number of elements satisfying `p`. -/
theorem length_filter_not_add_countP (p : α → Bool) (l : List α) :
    (l.filter fun a => !p a).length + l.countP p = l.length := by
  induction l with
  | nil => rfl
  | cons a l ih =>
    by_cases h : p a <;>
      simp [List.filter_cons, List.countP_cons, h, ← ih] <;> omega

/-- C1: for every mutation handler (add, toggle complete, edit title,
delete) and every collection, if the awaited transport call rejects
(non-success status) then the collection the root component holds
afterwards is exactly the prior collection. -/
theorem mutation_atomic_on_rejection
    (title : String) (id : Nat) (completed : Bool)
    (resT : Resp Todo) (resU : Resp Unit) (todos : List Todo)
    (hT : resT.ok = false) (hU : resU.ok = false) :
    stateAfter (handleAdd title resT todos) todos = todos ∧
    stateAfter (handleToggle id completed resT todos) todos = todos ∧
    stateAfter (handleEdit id title resT todos) todos = todos ∧
    stateAfter (handleDelete id resU todos) todos = todos := by
  simp [stateAfter, handleAdd, handleToggle, handleEdit, handleDelete,
    createTodo, updateTodo, deleteTodo, hT, hU]

/-- Witness for C1 at a concrete rejected response and collection. -/
theorem mutation_atomic_on_rejection_witness :
    stateAfter (handleAdd "x" ⟨false, ⟨9, "x", false⟩⟩ [⟨1, "a", true⟩])
      [⟨1, "a", true⟩] = [⟨1, "a", true⟩] ∧
    stateAfter (handleToggle 1 true ⟨false, ⟨9, "x", false⟩⟩ [⟨1, "a", true⟩])
      [⟨1, "a", true⟩] = [⟨1, "a", true⟩] ∧
    stateAfter (handleEdit 1 "x" ⟨false, ⟨9, "x", false⟩⟩ [⟨1, "a", true⟩])
      [⟨1, "a", true⟩] = [⟨1, "a", true⟩] ∧
    stateAfter (handleDelete 1 ⟨false, ()⟩ [⟨1, "a", true⟩])
      [⟨1, "a", true⟩] = [⟨1, "a", true⟩] := by
  exact mutation_atomic_on_rejection "x" 1 true ⟨false, ⟨9, "x", false⟩⟩
    ⟨false, ()⟩ [⟨1, "a", true⟩] rfl rfl

/-- C2: for every input whose trimmed text is non-empty, a successful
submission through the form appends the server-created record: the
collection grows by exactly one and its last element's title equals the
trimmed input, given that the create response echoes the submitted title. -/
theorem add_appends_trimmed_title
    (input : String) (res : Resp Todo) (todos : List Todo)
    (hne : jsTrim input ≠ "") (hok : res.ok = true)
    (hecho : res.body.title = jsTrim input) :
    (formSubmit input res todos).2.length = todos.length + 1 ∧
    (formSubmit input res todos).2.getLast?.map Todo.title
      = some (jsTrim input) := by
  have h : (formSubmit input res todos).2 = todos ++ [res.body] := by
    simp [formSubmit, hne, handleAdd, createTodo, hok]
  rw [h]
  refine ⟨by simp, ?_⟩
  rw [List.getLast?_concat]
  simp [hecho]

/-- Witness for C2 at a concrete input, response and collection. -/
theorem add_appends_trimmed_title_witness :
    (formSubmit " buy milk " ⟨true, ⟨2, "buy milk", false⟩⟩
      [⟨1, "a", true⟩]).2.length
      = ([⟨1, "a", true⟩] : List Todo).length + 1 ∧
    (formSubmit " buy milk " ⟨true, ⟨2, "buy milk", false⟩⟩
      [⟨1, "a", true⟩]).2.getLast?.map Todo.title
      = some (jsTrim " buy milk ") := by
  exact add_appends_trimmed_title " buy milk " ⟨true, ⟨2, "buy milk", false⟩⟩
    [⟨1, "a", true⟩] (by decide) rfl (by decide)

/-- C3: for every collection containing the targeted identifier, a
successful toggle resolves, keeps the length, replaces every element whose
identifier matches by the server-returned record, and leaves every other
element identical in value and position. -/
theorem toggle_replaces_only_target
    (id : Nat) (completed : Bool) (res : Resp Todo) (todos : List Todo)
    (hok : res.ok = true) (hmem : ∃ t ∈ todos, t.id = id) :
    ∃ next, handleToggle id completed res todos = .ok next ∧
      next.length = todos.length ∧
      (∀ (i : Nat) (t : Todo), todos[i]? = some t → t.id ≠ id →
        next[i]? = some t) ∧
      (∀ (i : Nat) (t : Todo), todos[i]? = some t → t.id = id →
        next[i]? = some res.body) ∧
      (∃ (i : Nat) (t : Todo), todos[i]? = some t ∧ t.id = id) := by
  refine ⟨todos.map fun t => if t.id == id then res.body else t,
    by simp [handleToggle, updateTodo, hok], by simp, ?_, ?_, ?_⟩
  · intro i t hit hne
    rw [List.getElem?_map, hit]
    simp [hne]
  · intro i t hit heq
    rw [List.getElem?_map, hit]
    simp [heq]
  · obtain ⟨t, ht, hid⟩ := hmem
    obtain ⟨i, hi⟩ := List.getElem?_of_mem ht
    exact ⟨i, t, hi, hid⟩

/-- Witness for C3 at a concrete collection of two records. -/
theorem toggle_replaces_only_target_witness :
    ∃ next : List Todo, handleToggle 1 true ⟨true, ⟨1, "a", true⟩⟩
        [⟨1, "a", false⟩, ⟨2, "b", false⟩] = .ok next ∧
      next.length = ([⟨1, "a", false⟩, ⟨2, "b", false⟩] : List Todo).length ∧
      (∀ (i : Nat) (t : Todo),
        ([⟨1, "a", false⟩, ⟨2, "b", false⟩] : List Todo)[i]? = some t →
        t.id ≠ 1 → next[i]? = some t) ∧
      (∀ (i : Nat) (t : Todo),
        ([⟨1, "a", false⟩, ⟨2, "b", false⟩] : List Todo)[i]? = some t →
        t.id = 1 → next[i]? = some (⟨1, "a", true⟩ : Todo)) ∧
      (∃ (i : Nat) (t : Todo),
        ([⟨1, "a", false⟩, ⟨2, "b", false⟩] : List Todo)[i]? = some t ∧
        t.id = 1) := by
  exact toggle_replaces_only_target 1 true ⟨true, ⟨1, "a", true⟩⟩
    [⟨1, "a", false⟩, ⟨2, "b", false⟩] rfl ⟨⟨1, "a", false⟩, by decide, rfl⟩

/-- Counterexample to C4 as stated: when the server-created record reuses
an identifier already present in the collection (here `1`), the add
followed by a remove of the new identifier drops the pre-existing record as
well, so the round trip does not restore the prior collection. -/
theorem add_then_remove_roundtrip_cex :
    stateAfter (handleAdd "b" ⟨true, ⟨1, "b", false⟩⟩ [⟨1, "a", false⟩])
      [⟨1, "a", false⟩] = [⟨1, "a", false⟩, ⟨1, "b", false⟩] ∧
    stateAfter
      (handleDelete 1 ⟨true, ()⟩ [⟨1, "a", false⟩, ⟨1, "b", false⟩])
      [⟨1, "a", false⟩, ⟨1, "b", false⟩] = [] ∧
    ([] : List Todo) ≠ [⟨1, "a", false⟩] := by
  refine ⟨rfl, rfl, by decide⟩

/-- C4 (amended): for every collection, a successful add followed by a
successful remove of the newly created record's identifier restores the
collection before the add, provided the created identifier is fresh (not
already carried by any element of the prior collection). -/
theorem add_then_remove_roundtrip (title : String) (created : Todo)
    (todos : List Todo) (resD : Resp Unit) (hok : resD.ok = true)
    (hfresh : ∀ t ∈ todos, t.id ≠ created.id) :
    stateAfter
      (handleDelete created.id resD
        (stateAfter (handleAdd title ⟨true, created⟩ todos) todos))
      (stateAfter (handleAdd title ⟨true, created⟩ todos) todos)
      = todos := by
  have h1 : stateAfter (handleAdd title ⟨true, created⟩ todos) todos
      = todos ++ [created] := by
    simp [stateAfter, handleAdd, createTodo]
  rw [h1]
  have h2 : (todos ++ [created]).filter (fun t => !(t.id == created.id))
      = todos := by
    rw [List.filter_append]
    have h3 : [created].filter (fun t => !(t.id == created.id)) = [] := by
      simp
    rw [h3, List.append_nil]
    exact List.filter_eq_self.mpr fun t ht => by simpa using hfresh t ht
  simp [stateAfter, handleDelete, deleteTodo, hok, h2]

/-- Witness for the amended C4 at a concrete collection and fresh id. -/
theorem add_then_remove_roundtrip_witness :
    stateAfter
      (handleDelete (⟨2, "b", false⟩ : Todo).id ⟨true, ()⟩
        (stateAfter (handleAdd "b" ⟨true, ⟨2, "b", false⟩⟩ [⟨1, "a", true⟩])
          [⟨1, "a", true⟩]))
      (stateAfter (handleAdd "b" ⟨true, ⟨2, "b", false⟩⟩ [⟨1, "a", true⟩])
        [⟨1, "a", true⟩])
      = [⟨1, "a", true⟩] := by
  exact add_then_remove_roundtrip "b" ⟨2, "b", false⟩ [⟨1, "a", true⟩]
    ⟨true, ()⟩ rfl (by decide)

/-- Counterexample to C5 as stated: in a collection where two records share
identifier `1`, a successful remove of `1` drops both, leaving zero
elements rather than exactly one fewer. -/
theorem remove_decrements_cex :
    (∃ t ∈ ([⟨1, "a", false⟩, ⟨1, "b", false⟩] : List Todo), t.id = 1) ∧
    stateAfter
      (handleDelete 1 ⟨true, ()⟩ [⟨1, "a", false⟩, ⟨1, "b", false⟩])
      [⟨1, "a", false⟩, ⟨1, "b", false⟩] = [] ∧
    (stateAfter
      (handleDelete 1 ⟨true, ()⟩ [⟨1, "a", false⟩, ⟨1, "b", false⟩])
      [⟨1, "a", false⟩, ⟨1, "b", false⟩]).length
      ≠ ([⟨1, "a", false⟩, ⟨1, "b", false⟩] : List Todo).length - 1 := by
  refine ⟨by decide, rfl, by decide⟩

/-- C5 (amended): for every collection in which exactly one element carries
the given identifier, a successful remove yields a collection with exactly
one fewer element and no element with the removed identifier. -/
theorem remove_decrements_and_drops_id (id : Nat) (res : Resp Unit)
    (todos : List Todo) (hok : res.ok = true)
    (huniq : todos.countP (fun t => t.id == id) = 1) :
    ∃ next, handleDelete id res todos = .ok next ∧
      next.length + 1 = todos.length ∧
      ∀ t ∈ next, t.id ≠ id := by
  refine ⟨todos.filter fun t => !(t.id == id),
    by simp [handleDelete, deleteTodo, hok], ?_, ?_⟩
  · have h := length_filter_not_add_countP (fun t => t.id == id) todos
    rw [huniq] at h
    exact h
  · intro t ht
    simpa using List.of_mem_filter ht

/-- Witness for the amended C5 at a concrete two-element collection. -/
theorem remove_decrements_and_drops_id_witness :
    ∃ next : List Todo,
      handleDelete 1 ⟨true, ()⟩ [⟨1, "a", false⟩, ⟨2, "b", true⟩]
        = .ok next ∧
      next.length + 1 = ([⟨1, "a", false⟩, ⟨2, "b", true⟩] : List Todo).length ∧
      ∀ t ∈ next, t.id ≠ 1 := by
  exact remove_decrements_and_drops_id 1 ⟨true, ()⟩
    [⟨1, "a", false⟩, ⟨2, "b", true⟩] rfl (by decide)

/-- C6: the item component's save invokes no edit callback (hence no
network call and no mutation) whenever the draft equals the record's
current title or the draft trims to the empty string. -/
theorem save_noop_on_equal_or_blank (todo : Todo) (draft : String)
    (h : draft = todo.title ∨ jsTrim draft = "") :
    save todo draft = none := by
  rcases h with h | h
  · simp [save, h]
  · simp [save, h]

/-- Witness for C6 on both disjuncts: an unchanged draft and a
whitespace-only draft. -/
theorem save_noop_on_equal_or_blank_witness :
    save ⟨1, "a", false⟩ "a" = none ∧ save ⟨1, "a", false⟩ "  " = none :=
  ⟨save_noop_on_equal_or_blank ⟨1, "a", false⟩ "a" (Or.inl rfl),
   save_noop_on_equal_or_blank ⟨1, "a", false⟩ "  " (Or.inr (by decide))⟩

/-- C7: a submission whose draft trims to the empty string invokes no add
callback and leaves the collection untouched; otherwise the callback is
invoked with the trimmed text, and the field is cleared exactly when the
callback resolves (left as typed when it rejects). -/
theorem submit_guard_and_clear (title : String) (res : Resp Todo)
    (todos : List Todo) :
    (jsTrim title = "" →
      (formSubmit title res todos).1.callArg = none ∧
      (formSubmit title res todos).2 = todos) ∧
    (jsTrim title ≠ "" →
      (formSubmit title res todos).1.callArg = some (jsTrim title) ∧
      (res.ok = true → (formSubmit title res todos).1.field = "") ∧
      (res.ok = false → (formSubmit title res todos).1.field = title)) := by
  constructor
  · intro h
    simp [formSubmit, h]
  · intro h
    cases hok : res.ok
    · simp [formSubmit, h, handleAdd, createTodo, hok]
    · simp [formSubmit, h, handleAdd, createTodo, hok]

/-- Witness for C7: a whitespace-only draft (no call, no mutation), a
resolving submission (field cleared), and a rejected submission (field
kept). -/
theorem submit_guard_and_clear_witness :
    ((formSubmit "  " ⟨true, ⟨2, "b", false⟩⟩ [⟨1, "a", true⟩]).1.callArg
        = none ∧
      (formSubmit "  " ⟨true, ⟨2, "b", false⟩⟩ [⟨1, "a", true⟩]).2
        = [⟨1, "a", true⟩]) ∧
    (formSubmit " b " ⟨true, ⟨2, "b", false⟩⟩ []).1.callArg
      = some (jsTrim " b ") ∧
    (formSubmit " b " ⟨true, ⟨2, "b", false⟩⟩ []).1.field = "" ∧
    (formSubmit " b " ⟨false, ⟨2, "b", false⟩⟩ []).1.field = " b " := by
  refine ⟨(submit_guard_and_clear "  " ⟨true, ⟨2, "b", false⟩⟩
      [⟨1, "a", true⟩]).1 (by decide), ?_, ?_, ?_⟩
  · exact ((submit_guard_and_clear " b " ⟨true, ⟨2, "b", false⟩⟩ []).2
      (by decide)).1
  · exact (((submit_guard_and_clear " b " ⟨true, ⟨2, "b", false⟩⟩ []).2
      (by decide)).2).1 rfl
  · exact (((submit_guard_and_clear " b " ⟨false, ⟨2, "b", false⟩⟩ []).2
      (by decide)).2).2 rfl

/-- C8: each transport operation rejects exactly on a non-success status,
with its fixed message ("Failed to load todos", "Failed to create todo",
"Failed to update todo", "Failed to delete todo"); on success, list,
create and update return the decoded body, and delete returns the `true`
acknowledgment. -/
theorem transport_status_and_messages (lb : List Todo) (tb ub : Todo)
    (title : String) (idU idD : Nat) (patch : Patch) :
    listTodos ⟨true, lb⟩ = .ok lb ∧
    listTodos ⟨false, lb⟩ = .error "Failed to load todos" ∧
    createTodo title ⟨true, tb⟩ = .ok tb ∧
    createTodo title ⟨false, tb⟩ = .error "Failed to create todo" ∧
    updateTodo idU patch ⟨true, ub⟩ = .ok ub ∧
    updateTodo idU patch ⟨false, ub⟩ = .error "Failed to update todo" ∧
    deleteTodo idD ⟨true, ()⟩ = .ok true ∧
    deleteTodo idD ⟨false, ()⟩ = .error "Failed to delete todo" := by
  simp [listTodos, createTodo, updateTodo, deleteTodo]

/-- C9: a successful toggle or edit whose identifier matches no element of
the collection leaves the collection element-wise unchanged. -/
theorem update_absent_id_noop (id : Nat) (completed : Bool)
    (title : String) (res : Resp Todo) (todos : List Todo)
    (hok : res.ok = true) (habs : ∀ t ∈ todos, t.id ≠ id) :
    handleToggle id completed res todos = .ok todos ∧
    handleEdit id title res todos = .ok todos := by
  have hmap : List.map (fun t => if t.id = id then res.body else t) todos
      = todos := by
    simpa using map_replace_eq_self id res.body todos habs
  constructor
  · simp [handleToggle, updateTodo, hok, hmap]
  · simp [handleEdit, updateTodo, hok, hmap]

/-- Witness for C9 at a concrete collection missing the identifier `7`. -/
theorem update_absent_id_noop_witness :
    handleToggle 7 true ⟨true, ⟨7, "x", true⟩⟩
      [⟨1, "a", false⟩, ⟨2, "b", true⟩]
      = .ok [⟨1, "a", false⟩, ⟨2, "b", true⟩] ∧
    handleEdit 7 "x" ⟨true, ⟨7, "x", true⟩⟩
      [⟨1, "a", false⟩, ⟨2, "b", true⟩]
      = .ok [⟨1, "a", false⟩, ⟨2, "b", true⟩] := by
  exact update_absent_id_noop 7 true "x" ⟨true, ⟨7, "x", true⟩⟩
    [⟨1, "a", false⟩, ⟨2, "b", true⟩] rfl (by decide)

/-- C10: a successful remove drops every element carrying the identifier
(the result contains none of them, while every element with a different
identifier keeps its multiplicity), and when no element carries it the
collection is unchanged. -/
theorem delete_removes_all_matching (id : Nat) (res : Resp Unit)
    (todos : List Todo) (hok : res.ok = true) :
    ∃ next, handleDelete id res todos = .ok next ∧
      (∀ t ∈ next, t.id ≠ id) ∧
      (∀ t : Todo, t.id ≠ id → next.count t = todos.count t) ∧
      ((∀ t ∈ todos, t.id ≠ id) → next = todos) := by
  refine ⟨todos.filter fun t => !(t.id == id),
    by simp [handleDelete, deleteTodo, hok], ?_, ?_, ?_⟩
  · intro t ht
    simpa using List.of_mem_filter ht
  · intro t hne
    exact List.count_filter (by simpa using hne)
  · intro hall
    exact List.filter_eq_self.mpr fun t ht => by simpa using hall t ht

/-- Witness for C10 at a collection holding the identifier `1` twice. -/
theorem delete_removes_all_matching_witness :
    ∃ next : List Todo,
      handleDelete 1 ⟨true, ()⟩
        [⟨1, "a", false⟩, ⟨2, "b", true⟩, ⟨1, "c", false⟩] = .ok next ∧
      (∀ t ∈ next, t.id ≠ 1) ∧
      (∀ t : Todo, t.id ≠ 1 → next.count t
        = ([⟨1, "a", false⟩, ⟨2, "b", true⟩, ⟨1, "c", false⟩] :
            List Todo).count t) ∧
      ((∀ t ∈ ([⟨1, "a", false⟩, ⟨2, "b", true⟩, ⟨1, "c", false⟩] :
          List Todo), t.id ≠ 1) →
        next = [⟨1, "a", false⟩, ⟨2, "b", true⟩, ⟨1, "c", false⟩]) := by
  exact delete_removes_all_matching 1 ⟨true, ()⟩
    [⟨1, "a", false⟩, ⟨2, "b", true⟩, ⟨1, "c", false⟩] rfl
